import Mathlib

set_option linter.unusedVariables false

/-!
Shallow embedding of the Self_Learning_RAG repository.

Source files modelled here:
* src/simple_rag_demo.py — class SimpleRAG with methods add_document,
  _generate_embedding, retrieve, _cosine_similarity, generate_answer, query.
* src/test_api.py — load_environment and the startup part of main.

Real numbers stand for Python floats.  The numpy pseudorandom generator
np.random.rand is modelled as an explicit stream of reals together with a
position, threaded through every call that draws from it.  Python division
by zero on floats produces NaN without raising; in the real-valued model
the Lean convention x / 0 = 0 plays the role of that junk value.
-/

/-- A stored document, as built in add_document: a dictionary with keys
id and content (src/simple_rag_demo.py lines 20-23). -/
structure Document where
  id : String
  content : String
deriving DecidableEq

/-- Model of the numpy global pseudorandom generator backing np.random.rand:
an infinite stream of reals and the position of the next draw. -/
structure RNG where
  stream : ℕ → ℝ
  pos : ℕ

/-- Draw n sequential values from the generator, advancing its position:
the model of np.random.rand(n). -/
def npRandomRand (rng : RNG) : ℕ → List ℝ × RNG
  | 0 => ([], rng)
  | n + 1 =>
    let x := rng.stream rng.pos
    let rest := npRandomRand ⟨rng.stream, rng.pos + 1⟩ n
    (x :: rest.1, rest.2)

/-- SimpleRAG._generate_embedding (src/simple_rag_demo.py lines 33-41):
computes words and vocab from the text and then ignores both, returning
np.random.rand(100).  The text parameter has no influence on the result. -/
def _generate_embedding (text : String) (rng : RNG) : List ℝ × RNG :=
  let words := (text.toLower).splitOn " "
  let vocab := words.dedup
  npRandomRand rng 100

/-- The mutable state of a SimpleRAG instance: the documents list, the
embeddings list and the doc-id index dictionary (modelled as a lookup
function, src/simple_rag_demo.py lines 13-16). -/
structure RAGState where
  documents : List Document
  embeddings : List (List ℝ)
  index : String → Option ℕ

/-- SimpleRAG.__init__: both storage lists empty, index dictionary empty. -/
def initSimpleRAG : RAGState :=
  ⟨[], [], fun _ => none⟩

/-- SimpleRAG.add_document (src/simple_rag_demo.py lines 18-31): appends the
document, appends a fresh embedding for the content, and points the index
entry for doc_id at the new last position len(documents) - 1.  There is no
duplicate-id check and no failure path. -/
def add_document (st : RAGState) (doc_id content : String) (rng : RNG) :
    RAGState × RNG :=
  let documents := st.documents ++ [⟨doc_id, content⟩]
  let er := _generate_embedding content rng
  let embeddings := st.embeddings ++ [er.1]
  let index := fun k => if k = doc_id then some (documents.length - 1) else st.index k
  (⟨documents, embeddings, index⟩, er.2)

/-- Run a sequence of ingestion operations (doc_id, content) from a given
state, threading the pseudorandom generator. -/
def runIngest : RAGState → RNG → List (String × String) → RAGState × RNG
  | st, rng, [] => (st, rng)
  | st, rng, op :: ops =>
    runIngest (add_document st op.1 op.2 rng).1 (add_document st op.1 op.2 rng).2 ops

/-- The invariant claimed by the spec for the storage containers:
documents and embeddings stay in 1:1 pairing, and every index lookup
resolves to a valid position in both. -/
def StateInv (st : RAGState) : Prop :=
  st.documents.length = st.embeddings.length ∧
  ∀ id pos, st.index id = some pos →
    pos < st.documents.length ∧ pos < st.embeddings.length

/-- np.dot on two equal-length float vectors: sum of pointwise products. -/
def npDot (v w : List ℝ) : ℝ :=
  (List.zipWith (fun a b => a * b) v w).sum

/-- np.linalg.norm: the Euclidean norm, square root of the sum of squares. -/
noncomputable def npNorm (v : List ℝ) : ℝ :=
  Real.sqrt ((v.map (fun x => x * x)).sum)

/-- SimpleRAG._cosine_similarity (src/simple_rag_demo.py lines 68-73):
dot(vec1, vec2) / (norm(vec1) * norm(vec2)), computed unconditionally.
No zero-norm check exists; at a zero denominator the Python code produces
NaN (float division of numpy scalars does not raise), modelled here by the
Lean convention that real division by zero yields 0. -/
noncomputable def _cosine_similarity (vec1 vec2 : List ℝ) : ℝ :=
  npDot vec1 vec2 / (npNorm vec1 * npNorm vec2)

/-- The error taxonomy named by the spec for the similarity computation. -/
inductive SimError where
  | degenerateVector
deriving DecidableEq

/-- The cosine-similarity contract exactly as the spec words it, for
comparison with the source function _cosine_similarity: similarity is
undefined when either vector has zero norm and must fail with
DegenerateVectorError instead of dividing by zero. -/
noncomputable def cosineSimilaritySpecModel (vec1 vec2 : List ℝ) :
    Except SimError ℝ :=
  if npNorm vec1 = 0 ∨ npNorm vec2 = 0 then Except.error SimError.degenerateVector
  else Except.ok (npDot vec1 vec2 / (npNorm vec1 * npNorm vec2))

/-- The Boolean comparison realised by similarities.sort(key, reverse=True)
in retrieve (src/simple_rag_demo.py line 59): entry a may stay before entry
b exactly when the score of a is at least the score of b.  CPython list.sort
is a stable descending sort under this comparison. -/
noncomputable def simLE (a b : ℕ × ℝ) : Bool :=
  decide (b.2 ≤ a.2)

/-- The similarities list built by the loop in retrieve
(src/simple_rag_demo.py lines 52-56): one (position, cosine similarity)
pair per stored embedding, in storage order. -/
noncomputable def similarityList (st : RAGState) (query_embedding : List ℝ) :
    List (ℕ × ℝ) :=
  st.embeddings.enum.map (fun p => (p.1, _cosine_similarity query_embedding p.2))

/-- The similarities list after the stable descending sort of
src/simple_rag_demo.py line 59. -/
noncomputable def rankedList (st : RAGState) (query_embedding : List ℝ) :
    List (ℕ × ℝ) :=
  (similarityList st query_embedding).mergeSort simLE

/-- SimpleRAG.retrieve (src/simple_rag_demo.py lines 43-66): on an empty
documents list return the empty list at once; otherwise draw a fresh query
embedding, score every stored embedding, sort the scores descending with the
stable sort, truncate to top_k and read the contents back off the documents
list. -/
noncomputable def retrieve (st : RAGState) (query : String) (top_k : ℕ)
    (rng : RNG) : List (String × ℝ) :=
  if st.documents.isEmpty then []
  else
    let query_embedding := (_generate_embedding query rng).1
    ((rankedList st query_embedding).take top_k).map
      (fun p => ((st.documents.getD p.1 ⟨"", ""⟩).content, p.2))

/-- SimpleRAG.generate_answer (src/simple_rag_demo.py lines 75-94): a prompt
is assembled from the context and the query but never used; the returned
answer string is a template mentioning only the query. -/
def generate_answer (query : String) (context : List String) : String :=
  let prompt :=
    "基于以下上下文信息回答问题：\n\n上下文：\n" ++
      String.intercalate " " context ++
      "\n\n问题：" ++ query ++ "\n\n回答：\n"
  let answer :=
    "根据检索到的信息，关于\x27" ++ query ++
      "\x27的回答是：基于提供的上下文，这里是生成的答案。"
  answer

/-- The fixed no-information response of SimpleRAG.query
(src/simple_rag_demo.py line 106). -/
def noInfoResponse : String :=
  "抱歉，知识库中没有相关信息。"

/-- SimpleRAG.query (src/simple_rag_demo.py lines 96-121), instrumented to
count invocations of generate_answer in the second component: retrieve with
top_k = 3; when nothing is retrieved, return the fixed no-information string
without calling generate_answer; otherwise pass the retrieved contents as
context to generate_answer. -/
noncomputable def query (st : RAGState) (question : String) (rng : RNG) :
    String × ℕ :=
  let retrieved_docs := retrieve st question 3 rng
  if retrieved_docs.isEmpty then (noInfoResponse, 0)
  else
    let context_list := retrieved_docs.map (fun p => p.1)
    (generate_answer question context_list, 1)

/-- The configuration values read by src/test_api.py from the environment:
ANTHROPIC_API_KEY and ANTHROPIC_BASE_URL, each possibly absent. -/
structure Env where
  anthropicApiKey : Option String
  anthropicBaseUrl : Option String

/-- Python truthiness test applied to an optional environment string:
not x is true when the variable is absent or the string is empty. -/
def falsy : Option String → Bool
  | none => true
  | some s => s.isEmpty

/-- The error line printed when ANTHROPIC_API_KEY is missing
(src/test_api.py line 22). -/
def apiKeyMissingMsg : String :=
  "❌ 错误: 未找到ANTHROPIC_API_KEY环境变量"

/-- The error line printed when ANTHROPIC_BASE_URL is missing
(src/test_api.py line 26). -/
def baseUrlMissingMsg : String :=
  "❌ 错误: 未找到ANTHROPIC_BASE_URL环境变量"

/-- load_environment (src/test_api.py lines 14-32): returns the printed
lines together with the pair (api_key, base_url); on a missing key or URL
it reports the corresponding error and returns (None, None). -/
def load_environment (env : Env) : List String × Option String × Option String :=
  let api_key := env.anthropicApiKey
  let base_url := env.anthropicBaseUrl
  if falsy api_key then ([apiKeyMissingMsg], none, none)
  else if falsy base_url then ([baseUrlMissingMsg], none, none)
  else
    let k := api_key.getD ""
    let u := base_url.getD ""
    (["✅ API Key: " ++ k.take 10 ++ "..." ++ k.drop (k.length - 4),
      "✅ Base URL: " ++ u], api_key, base_url)

/-- Outcome of the startup part of main in src/test_api.py: either the
process terminates with sys.exit(1) after printing the collected lines, or
it proceeds to the API tests with both configuration strings in hand. -/
inductive StartupOutcome where
  | exitFailure (log : List String)
  | proceed (api_key base_url : String) (log : List String)
deriving DecidableEq

/-- The startup portion of main (src/test_api.py lines 127-135): call
load_environment, then sys.exit(1) if either returned value is falsy. -/
def mainStartup (env : Env) : StartupOutcome :=
  let r := load_environment env
  if falsy r.2.1 || falsy r.2.2 then StartupOutcome.exitFailure r.1
  else StartupOutcome.proceed (r.2.1.getD "") (r.2.2.getD "") r.1

/-- A concrete pseudorandom stream for witnesses: every draw is 0. -/
def rngZero : RNG :=
  ⟨fun _ => 0, 0⟩

/-- A concrete pseudorandom stream for counterexamples: the n-th draw is n,
so distinct positions yield distinct values. -/
noncomputable def rngNat : RNG :=
  ⟨fun n => (n : ℝ), 0⟩

/-- Unfolding lemma: add_document appends exactly the new document. -/
theorem add_document_documents (st : RAGState) (i c : String) (rng : RNG) :
    (add_document st i c rng).1.documents = st.documents ++ [⟨i, c⟩] := rfl

/-- Unfolding lemma: add_document appends exactly the fresh embedding. -/
theorem add_document_embeddings (st : RAGState) (i c : String) (rng : RNG) :
    (add_document st i c rng).1.embeddings =
      st.embeddings ++ [(_generate_embedding c rng).1] := rfl

/-- Unfolding lemma: the index after add_document. -/
theorem add_document_index (st : RAGState) (i c : String) (rng : RNG) :
    (add_document st i c rng).1.index = fun k =>
      if k = i then some ((st.documents ++ [(⟨i, c⟩ : Document)]).length - 1)
      else st.index k := rfl

/-- After add_document, the index entry for the inserted id points at the
position of the old length, which is the new last position. -/
theorem add_document_index_self (st : RAGState) (i c : String) (rng : RNG) :
    (add_document st i c rng).1.index i = some st.documents.length := by
  rw [add_document_index]
  simp

/-- The initial SimpleRAG state satisfies the container invariant. -/
theorem initSimpleRAG_inv : StateInv initSimpleRAG := by
  refine ⟨rfl, ?_⟩
  intro id pos h
  simp [initSimpleRAG] at h

/-- add_document preserves the container invariant. -/
theorem add_document_inv (st : RAGState) (i c : String) (rng : RNG)
    (h : StateInv st) : StateInv (add_document st i c rng).1 := by
  obtain ⟨hlen, hidx⟩ := h
  constructor
  · rw [add_document_documents, add_document_embeddings]
    simp [hlen]
  · intro id pos hp
    rw [add_document_documents, add_document_embeddings]
    rw [add_document_index] at hp
    simp only at hp
    by_cases hid : id = i
    · rw [if_pos hid] at hp
      simp at hp
      simp [← hp, hlen]
    · rw [if_neg hid] at hp
      have := hidx id pos hp
      simp
      omega

/-- runIngest preserves the container invariant along any operation list. -/
theorem runIngest_inv (ops : List (String × String)) :
    ∀ (st : RAGState) (rng : RNG), StateInv st → StateInv (runIngest st rng ops).1 := by
  induction ops with
  | nil => intro st rng h; exact h
  | cons op ops ih =>
    intro st rng h
    exact ih _ _ (add_document_inv st op.1 op.2 rng h)

/-- C6: in every state reachable by any sequence of ingest operations,
len(documents) = len(embeddings), and every index lookup that succeeds
resolves to a valid position in both containers. -/
theorem ragState_invariant_reachable (ops : List (String × String)) (rng : RNG) :
    StateInv (runIngest initSimpleRAG rng ops).1 :=
  runIngest_inv ops initSimpleRAG rng initSimpleRAG_inv

/-- C10: add_document always succeeds, for every doc_id and content
(duplicate ids and empty contents included): it appends exactly one entry to
documents and one to embeddings, and re-points index[doc_id] at the new last
position len(documents) - 1, which is the old document count. -/
theorem add_document_always_appends (st : RAGState) (doc_id content : String)
    (rng : RNG) :
    (add_document st doc_id content rng).1.documents =
        st.documents ++ [⟨doc_id, content⟩] ∧
    (add_document st doc_id content rng).1.embeddings =
        st.embeddings ++ [(_generate_embedding content rng).1] ∧
    (add_document st doc_id content rng).1.documents.length =
        st.documents.length + 1 ∧
    (add_document st doc_id content rng).1.index doc_id =
        some st.documents.length := by
  refine ⟨add_document_documents .., add_document_embeddings .., ?_,
    add_document_index_self ..⟩
  rw [add_document_documents]
  simp

/-- C2 amended: inserting a document whose id is already present in the
index does not fail and does not leave the state unchanged: the new document
is appended anyway and the index entry is re-pointed at the new position. -/
theorem add_document_duplicate_id_mutates (st : RAGState)
    (doc_id content : String) (rng : RNG) (pos : ℕ)
    (h : st.index doc_id = some pos) :
    (add_document st doc_id content rng).1.documents =
        st.documents ++ [⟨doc_id, content⟩] ∧
    (add_document st doc_id content rng).1.index doc_id =
        some st.documents.length ∧
    (add_document st doc_id content rng).1 ≠ st := by
  refine ⟨add_document_documents .., add_document_index_self .., ?_⟩
  intro he
  have hd : (add_document st doc_id content rng).1.documents.length =
      st.documents.length := by rw [he]
  rw [add_document_documents] at hd
  simp at hd

/-- C2 witness: a concrete state holding id "d1" at position 0, at which the
duplicate insert appends and re-points the index. -/
theorem add_document_duplicate_id_mutates_witness :
    (add_document initSimpleRAG "d1" "a" rngZero).1.index "d1" = some 0 ∧
    ((add_document (add_document initSimpleRAG "d1" "a" rngZero).1 "d1" "b" rngZero).1.documents =
        (add_document initSimpleRAG "d1" "a" rngZero).1.documents ++ [⟨"d1", "b"⟩] ∧
      (add_document (add_document initSimpleRAG "d1" "a" rngZero).1 "d1" "b" rngZero).1.index "d1" =
        some (add_document initSimpleRAG "d1" "a" rngZero).1.documents.length ∧
      (add_document (add_document initSimpleRAG "d1" "a" rngZero).1 "d1" "b" rngZero).1 ≠
        (add_document initSimpleRAG "d1" "a" rngZero).1) := by
  have h0 : (add_document initSimpleRAG "d1" "a" rngZero).1.index "d1" = some 0 :=
    add_document_index_self initSimpleRAG "d1" "a" rngZero
  exact ⟨h0, add_document_duplicate_id_mutates _ "d1" "b" rngZero 0 h0⟩

/-- C2 counterexample: the claim fails on the code.  With "d1" already
present, a second add_document for "d1" raises nothing (the function is
total) and does not leave the state as it was: the documents list grows from
one entry to two. -/
theorem add_document_duplicate_id_counterexample :
    (add_document initSimpleRAG "d1" "a" rngZero).1.index "d1" = some 0 ∧
    (add_document initSimpleRAG "d1" "a" rngZero).1.documents.length = 1 ∧
    (add_document (add_document initSimpleRAG "d1" "a" rngZero).1 "d1" "b" rngZero).1.documents.length = 2 ∧
    (add_document (add_document initSimpleRAG "d1" "a" rngZero).1 "d1" "b" rngZero).1 ≠
      (add_document initSimpleRAG "d1" "a" rngZero).1 := by
  refine ⟨add_document_index_self .., ?_, ?_, ?_⟩
  · rw [add_document_documents]; rfl
  · rw [add_document_documents, add_document_documents]; rfl
  · intro he
    have hd : (add_document (add_document initSimpleRAG "d1" "a" rngZero).1 "d1" "b" rngZero).1.documents.length =
        (add_document initSimpleRAG "d1" "a" rngZero).1.documents.length := by rw [he]
    rw [add_document_documents, add_document_documents] at hd
    simp at hd

/-- C5: retrieve on an empty index returns the empty sequence; being a total
function it raises no error, and no EmptyIndexError exists anywhere in the
embedded code. -/
theorem retrieve_empty_index_nil (st : RAGState) (q : String) (k : ℕ)
    (rng : RNG) (h : st.documents = []) : retrieve st q k rng = [] := by
  simp [retrieve, h]

/-- C5 witness: the freshly initialised state. -/
theorem retrieve_empty_index_nil_witness :
    initSimpleRAG.documents = [] ∧ retrieve initSimpleRAG "q" 5 rngZero = [] :=
  ⟨rfl, retrieve_empty_index_nil initSimpleRAG "q" 5 rngZero rfl⟩

/-- C4: query on an empty index returns the fixed no-information string and
performs zero invocations of generate_answer. -/
theorem query_empty_index_no_generator (st : RAGState) (question : String)
    (rng : RNG) (h : st.documents = []) :
    query st question rng = (noInfoResponse, 0) := by
  have hr : retrieve st question 3 rng = [] := by simp [retrieve, h]
  simp [query, hr]

/-- C4 witness: the freshly initialised state. -/
theorem query_empty_index_no_generator_witness :
    initSimpleRAG.documents = [] ∧
    query initSimpleRAG "什么是人工智能？" rngZero = (noInfoResponse, 0) :=
  ⟨rfl, query_empty_index_no_generator initSimpleRAG "什么是人工智能？" rngZero rfl⟩

/-- C9: generate_answer ignores the retrieved context entirely: for one and
the same query, any two context lists produce the identical answer string. -/
theorem generate_answer_context_independent (q : String) (c1 c2 : List String) :
    generate_answer q c1 = generate_answer q c2 := rfl

/-- The Python truthiness test on an absent value is true. -/
theorem falsy_none : falsy none = true := rfl

/-- C8: when either configuration value is absent, startup ends in
sys.exit(1) and the log reported to the user is exactly one of the two
missing-variable error lines. -/
theorem mainStartup_exits_on_missing_config (env : Env)
    (h : env.anthropicApiKey = none ∨ env.anthropicBaseUrl = none) :
    mainStartup env = StartupOutcome.exitFailure (load_environment env).1 ∧
    ((load_environment env).1 = [apiKeyMissingMsg] ∨
      (load_environment env).1 = [baseUrlMissingMsg]) := by
  by_cases hk : falsy env.anthropicApiKey
  · constructor
    · simp [mainStartup, load_environment, hk, falsy_none]
    · left
      simp [load_environment, hk]
  · rcases h with h | h
    · rw [h] at hk
      simp [falsy_none] at hk
    · constructor
      · simp [mainStartup, load_environment, hk, h, falsy_none]
      · right
        simp [load_environment, hk, h, falsy_none]

/-- C8 witness: API key absent, base URL present. -/
theorem mainStartup_exits_witness :
    ((⟨none, some "u"⟩ : Env).anthropicApiKey = none ∨
      (⟨none, some "u"⟩ : Env).anthropicBaseUrl = none) ∧
    (mainStartup ⟨none, some "u"⟩ =
        StartupOutcome.exitFailure (load_environment ⟨none, some "u"⟩).1 ∧
      ((load_environment ⟨none, some "u"⟩).1 = [apiKeyMissingMsg] ∨
        (load_environment ⟨none, some "u"⟩).1 = [baseUrlMissingMsg])) :=
  ⟨Or.inl rfl, mainStartup_exits_on_missing_config _ (Or.inl rfl)⟩

/-- The generator state after drawing n values has advanced by n. -/
theorem npRandomRand_snd (rng : RNG) (n : ℕ) :
    (npRandomRand rng n).2 = ⟨rng.stream, rng.pos + n⟩ := by
  induction n generalizing rng with
  | zero => cases rng; simp [npRandomRand]
  | succ n ih =>
    cases rng with
    | mk s p =>
      simp [npRandomRand, ih]
      omega

/-- The first of n + 1 drawn values is the stream value at the current
position. -/
theorem npRandomRand_head (rng : RNG) (n : ℕ) :
    (npRandomRand rng (n + 1)).1.head? = some (rng.stream rng.pos) := rfl

/-- C7 amended: the embedder output is a function of the generator state
alone; with identical generator states it returns identical vectors for any
two texts, identical or not. -/
theorem generate_embedding_text_agnostic (t1 t2 : String) (rng : RNG) :
    _generate_embedding t1 rng = _generate_embedding t2 rng := rfl

/-- C7 counterexample: two successive invocations on the identical text
"hello" return different vectors, because the second starts from the
generator state the first left behind. -/
theorem generate_embedding_nondeterministic :
    (_generate_embedding "hello" rngNat).1 ≠
      (_generate_embedding "hello" (_generate_embedding "hello" rngNat).2).1 := by
  have hsnd : (_generate_embedding "hello" rngNat).2 = ⟨rngNat.stream, 100⟩ := by
    show (npRandomRand rngNat 100).2 = _
    rw [npRandomRand_snd]
    rfl
  have h1 : (_generate_embedding "hello" rngNat).1.head? = some (rngNat.stream 0) :=
    npRandomRand_head rngNat 99
  have h2 : (_generate_embedding "hello" (_generate_embedding "hello" rngNat).2).1.head? =
      some (rngNat.stream 100) := by
    rw [hsnd]
    exact npRandomRand_head ⟨rngNat.stream, 100⟩ 99
  intro h
  rw [h, h2] at h1
  have h3 : ((100 : ℕ) : ℝ) = ((0 : ℕ) : ℝ) := by
    simpa [rngNat] using Option.some.inj h1
  norm_num at h3

/-- The norm of the one-dimensional zero vector is zero. -/
theorem npNorm_zero_singleton : npNorm [(0 : ℝ)] = 0 := by
  simp [npNorm]

/-- C1 counterexample: at the zero-norm input [0] against [1], the spec
contract demands a DegenerateVectorError, but the source function performs
the division and returns a value (the junk value 0 of the real-division
model, NaN at runtime): no error of any kind is raised. -/
theorem cosine_degenerate_counterexample :
    npNorm [(0 : ℝ)] = 0 ∧
    cosineSimilaritySpecModel [(0 : ℝ)] [(1 : ℝ)] =
      Except.error SimError.degenerateVector ∧
    _cosine_similarity [(0 : ℝ)] [(1 : ℝ)] = 0 := by
  refine ⟨npNorm_zero_singleton, ?_, ?_⟩
  · simp [cosineSimilaritySpecModel, npNorm_zero_singleton]
  · simp [_cosine_similarity, npNorm_zero_singleton]

/-- C1 amended: the source computes dot(a,b) / (norm(a) * norm(b))
unconditionally; when either norm is zero it does not fail, it divides by
the zero denominator and yields the junk value of the division model. -/
theorem cosine_zero_norm_no_error (vec1 vec2 : List ℝ)
    (h : npNorm vec1 = 0 ∨ npNorm vec2 = 0) :
    _cosine_similarity vec1 vec2 = 0 := by
  have hd : npNorm vec1 * npNorm vec2 = 0 := by
    rcases h with h | h <;> simp [h]
  simp [_cosine_similarity, hd]

/-- C1 witness: the zero-norm pair [0], [1]. -/
theorem cosine_zero_norm_no_error_witness :
    (npNorm [(0 : ℝ)] = 0 ∨ npNorm [(1 : ℝ)] = 0) ∧
    _cosine_similarity [(0 : ℝ)] [(1 : ℝ)] = 0 :=
  ⟨Or.inl npNorm_zero_singleton,
    cosine_zero_norm_no_error _ _ (Or.inl npNorm_zero_singleton)⟩

/-- The sort comparison of retrieve is transitive. -/
theorem simLE_trans (a b c : ℕ × ℝ) (h1 : simLE a b) (h2 : simLE b c) :
    simLE a c := by
  simp [simLE] at *
  exact le_trans h2 h1

/-- The sort comparison of retrieve is total. -/
theorem simLE_total (a b : ℕ × ℝ) : simLE a b || simLE b a := by
  simp [simLE]
  exact le_total b.2 a.2

/-- The similarities list scores every stored embedding: one entry each. -/
theorem similarityList_length (st : RAGState) (qe : List ℝ) :
    (similarityList st qe).length = st.embeddings.length := by
  simp [similarityList]

/-- The sorted similarities list is a permutation of the unsorted one. -/
theorem rankedList_perm (st : RAGState) (qe : List ℝ) :
    (rankedList st qe).Perm (similarityList st qe) :=
  List.mergeSort_perm _ _

/-- The sorted similarities list still has one entry per stored embedding. -/
theorem rankedList_length (st : RAGState) (qe : List ℝ) :
    (rankedList st qe).length = st.embeddings.length := by
  rw [rankedList, List.length_mergeSort, similarityList_length]

/-- The sorted similarities list is sorted by non-increasing score. -/
theorem rankedList_sorted (st : RAGState) (qe : List ℝ) :
    (rankedList st qe).Pairwise (fun a b : ℕ × ℝ => b.2 ≤ a.2) := by
  have h := List.sorted_mergeSort simLE_trans simLE_total (similarityList st qe)
  exact h.imp (fun hab => by simpa [simLE] using hab)

/-- Two entries read off positions i < j of a list form a two-element
sublist of it. -/
theorem pair_sublist_of_getElem? {α : Type _} {l : List α} :
    ∀ {i j : ℕ} {a b : α}, i < j → l[i]? = some a → l[j]? = some b →
      List.Sublist [a, b] l := by
  induction l with
  | nil =>
    intro i j a b hij ha hb
    simp at ha
  | cons x xs ih =>
    intro i j a b hij ha hb
    cases i with
    | zero =>
      simp at ha
      cases j with
      | zero => omega
      | succ j =>
        simp at hb
        subst ha
        exact (List.singleton_sublist.mpr (List.getElem?_mem hb)).cons₂ x
    | succ i =>
      cases j with
      | zero => omega
      | succ j =>
        simp at ha hb
        exact (ih (by omega) ha hb).cons x

/-- Stability of the sort in retrieve: two score entries sitting at
positions i < j of the similarities list whose scores are equal keep that
relative order in the sorted list. -/
theorem rankedList_stable (st : RAGState) (qe : List ℝ) (a b : ℕ × ℝ)
    (i j : ℕ) (hij : i < j) (ha : (similarityList st qe)[i]? = some a)
    (hb : (similarityList st qe)[j]? = some b) (hs : a.2 = b.2) :
    List.Sublist [a, b] (rankedList st qe) := by
  have hsub : List.Sublist [a, b] (similarityList st qe) :=
    pair_sublist_of_getElem? hij ha hb
  have hab : simLE a b := by
    simp [simLE]
    exact le_of_eq hs.symm
  exact List.pair_sublist_mergeSort simLE_trans simLE_total hab hsub

/-- retrieve returns at most top_k results. -/
theorem retrieve_length_le (st : RAGState) (q : String) (k : ℕ) (rng : RNG) :
    (retrieve st q k rng).length ≤ k := by
  by_cases he : st.documents.isEmpty
  · simp [retrieve, he]
  · simp [retrieve, he]

/-- retrieve returns at most as many results as there are documents,
whenever the two storage containers agree in length (the reachable-state
invariant). -/
theorem retrieve_length_le_docs (st : RAGState) (q : String) (k : ℕ)
    (rng : RNG) (h : st.embeddings.length = st.documents.length) :
    (retrieve st q k rng).length ≤ st.documents.length := by
  by_cases he : st.documents.isEmpty
  · simp [retrieve, he]
  · simp [retrieve, he, rankedList, similarityList]
    omega

/-- The contents returned by retrieve come out sorted by non-increasing
similarity score. -/
theorem retrieve_sorted (st : RAGState) (q : String) (k : ℕ) (rng : RNG) :
    (retrieve st q k rng).Pairwise (fun a b : String × ℝ => b.2 ≤ a.2) := by
  by_cases he : st.documents.isEmpty
  · simp [retrieve, he]
  · have hsorted := rankedList_sorted st ((_generate_embedding q rng).1)
    have htake : ((rankedList st ((_generate_embedding q rng).1)).take k).Pairwise
        (fun a b : ℕ × ℝ => b.2 ≤ a.2) :=
      List.Pairwise.sublist (List.take_sublist k _) hsorted
    have hr : retrieve st q k rng =
        ((rankedList st ((_generate_embedding q rng).1)).take k).map
          (fun p => ((st.documents.getD p.1 ⟨"", ""⟩).content, p.2)) := by
      simp [retrieve, he]
    rw [hr]
    exact List.pairwise_map.mpr htake

/-- C3: over every reachable index state, retrieve scores the query
embedding against every stored vector (the similarities list has one entry
per stored embedding and the ranked list is a permutation of it), returns
its results sorted by non-increasing score, keeps entries with equal scores
in their original storage order (stability of the sort, stated on the
position-tagged score entries), and returns at most top_k results and at
most as many as there are documents. -/
theorem retrieve_ranked_spec (ops : List (String × String)) (rng0 : RNG)
    (q : String) (top_k : ℕ) (rng : RNG) :
    (retrieve (runIngest initSimpleRAG rng0 ops).1 q top_k rng).length ≤ top_k ∧
    (retrieve (runIngest initSimpleRAG rng0 ops).1 q top_k rng).length ≤
      (runIngest initSimpleRAG rng0 ops).1.documents.length ∧
    (retrieve (runIngest initSimpleRAG rng0 ops).1 q top_k rng).Pairwise
      (fun a b : String × ℝ => b.2 ≤ a.2) ∧
    (similarityList (runIngest initSimpleRAG rng0 ops).1
        ((_generate_embedding q rng).1)).length =
      (runIngest initSimpleRAG rng0 ops).1.embeddings.length ∧
    (rankedList (runIngest initSimpleRAG rng0 ops).1
        ((_generate_embedding q rng).1)).Perm
      (similarityList (runIngest initSimpleRAG rng0 ops).1
        ((_generate_embedding q rng).1)) ∧
    (∀ (a b : ℕ × ℝ) (i j : ℕ), i < j →
      (similarityList (runIngest initSimpleRAG rng0 ops).1
          ((_generate_embedding q rng).1))[i]? = some a →
      (similarityList (runIngest initSimpleRAG rng0 ops).1
          ((_generate_embedding q rng).1))[j]? = some b →
      a.2 = b.2 →
      List.Sublist [a, b] (rankedList (runIngest initSimpleRAG rng0 ops).1
        ((_generate_embedding q rng).1))) := by
  have hinv := runIngest_inv ops initSimpleRAG rng0 initSimpleRAG_inv
  exact ⟨retrieve_length_le .., retrieve_length_le_docs _ _ _ _ hinv.1.symm,
    retrieve_sorted .., similarityList_length .., rankedList_perm ..,
    fun a b i j hij ha hb hs => rankedList_stable _ _ a b i j hij ha hb hs⟩

/-- C3 witness: a concrete instantiation with one ingested document and
top_k = 2. -/
theorem retrieve_ranked_spec_witness :
    (retrieve (runIngest initSimpleRAG rngZero [("d1", "cats")]).1 "q" 2 rngZero).length ≤ 2 ∧
    (retrieve (runIngest initSimpleRAG rngZero [("d1", "cats")]).1 "q" 2 rngZero).length ≤
      (runIngest initSimpleRAG rngZero [("d1", "cats")]).1.documents.length ∧
    (retrieve (runIngest initSimpleRAG rngZero [("d1", "cats")]).1 "q" 2 rngZero).Pairwise
      (fun a b : String × ℝ => b.2 ≤ a.2) ∧
    (similarityList (runIngest initSimpleRAG rngZero [("d1", "cats")]).1
        ((_generate_embedding "q" rngZero).1)).length =
      (runIngest initSimpleRAG rngZero [("d1", "cats")]).1.embeddings.length ∧
    (rankedList (runIngest initSimpleRAG rngZero [("d1", "cats")]).1
        ((_generate_embedding "q" rngZero).1)).Perm
      (similarityList (runIngest initSimpleRAG rngZero [("d1", "cats")]).1
        ((_generate_embedding "q" rngZero).1)) ∧
    (∀ (a b : ℕ × ℝ) (i j : ℕ), i < j →
      (similarityList (runIngest initSimpleRAG rngZero [("d1", "cats")]).1
          ((_generate_embedding "q" rngZero).1))[i]? = some a →
      (similarityList (runIngest initSimpleRAG rngZero [("d1", "cats")]).1
          ((_generate_embedding "q" rngZero).1))[j]? = some b →
      a.2 = b.2 →
      List.Sublist [a, b] (rankedList (runIngest initSimpleRAG rngZero [("d1", "cats")]).1
        ((_generate_embedding "q" rngZero).1))) :=
  retrieve_ranked_spec [("d1", "cats")] rngZero "q" 2 rngZero
